import Mathlib

/-!
Shallow embedding of the subprocess-mediated prompt engine of AIModelMate
(`src/bot.ts`, class `Bot`) and of the HTTP prompt controller (`promptBot`).

The stateful TypeScript code is embedded as pure functions over explicit
state:
* construction (`mkBot`): the supported-model check and path resolution;
* `init` (`botInit`): the list of download tasks it starts, as a function of
  which artifact files already exist;
* `open`/`close` (`openBot`/`closeBot`): transitions on a supervisor state
  that records a trace of kill/spawn events, so single-instance and ordering
  properties are visible in the trace;
* `prompt`: split into its synchronous prefix (`promptStart`: the
  precondition check and the stdin write) and the per-exchange stdout
  listener machine (`exchangeStep`), driven by a list of stream events
  (data chunks and stream errors); concurrent in-flight exchanges are
  modelled by dispatching every stream event to every attached exchange in
  order, which is how Node delivers events to multiple listeners;
* `downloadExecutable`: its platform dispatch and the chmod step, with the
  semantics of `await fs.chmod(path, mode, cb)` (a callback-API call whose
  awaited value is `undefined` and whose callback runs detached from the
  enclosing promise chain) made explicit.
-/

namespace AIModelMate

/-- A scalar value of the `decoderConfig` record (`Record<string, any>` in
the source; the spec restricts it to string/number/boolean scalars). -/
inductive ConfigValue where
  | str (s : String)
  | num (n : Int)
  | bool (b : Bool)
deriving DecidableEq, Repr

/-- JavaScript `value.toString()` for the scalar config values. -/
def ConfigValue.toStr : ConfigValue → String
  | .str s => s
  | .num n => toString n
  | .bool b => if b then "true" else "false"

/-- The immutable per-`Bot` configuration set by the constructor:
`model`, `decoderConfig`, `executablePath`, `modelPath` (bot.ts lines 14-18,
33-34, 51-52). -/
structure BotConfig where
  model : String
  decoderConfig : List (String × ConfigValue)
  executablePath : String
  modelPath : String
deriving DecidableEq, Repr

/-- The `Bot` constructor (bot.ts lines 28-53): throws unless the model name
is one of the two supported names, then resolves the executable path and the
model-weights path from the name. -/
def mkBot (model : String) (decoderConfig : List (String × ConfigValue)) :
    Except String BotConfig :=
  if "gpt4all-lora-quantized" ≠ model ∧
      "gpt4all-lora-unfiltered-quantized" ≠ model then
    Except.error ("Model " ++ model ++ " is not supported.")
  else
    Except.ok
      { model := model
        decoderConfig := decoderConfig
        executablePath := "./executables/builtBot"
        modelPath := "./models/" ++ model ++ ".bin" }

/-- The spec's error taxonomy for prompt failures (§7): `notRunning` for a
prompt attempted without an open process (the source throws
`Bot is not initialized.`), `streamError e` for a child-stream failure during
an in-flight exchange (the source rejects the call with the underlying
stream error, carried here verbatim as `e`). -/
inductive PromptError where
  | notRunning
  | streamError (e : String)
deriving DecidableEq, Repr

/-- An event observed on the child's stdout stream: a data chunk (already
decoded to text, as `data.toString()` does) or a stream-level error. -/
inductive StreamEvent where
  | data (chunk : String)
  | error (e : String)
deriving DecidableEq, Repr

/-- JavaScript `s.trim()`: the string without its leading and trailing
whitespace characters. -/
def jsTrim (s : String) : String :=
  String.mk
    (((s.data.dropWhile Char.isWhitespace).reverse.dropWhile
        Char.isWhitespace).reverse)

/-- JavaScript `s.includes(t)` for the single-character needle `t` used by
the source (`">"`): does the character occur in the string? -/
def jsIncludesChar (s : String) (c : Char) : Bool :=
  s.data.contains c

/-- `terminateAndResolve`'s transformation of the accumulated buffer
(bot.ts lines 283-288): strip a single trailing sentinel character
(`endsWith(">")` then `slice(0, -1)`), only if present at the very end, then
trim surrounding whitespace. -/
def terminateAndResolve (finalResponse : String) : String :=
  jsTrim
    (if finalResponse.data.getLast? = some '>' then
      String.mk finalResponse.data.dropLast
    else finalResponse)

deriving instance DecidableEq for Except

/-- The per-call `PendingExchange` state of one in-flight `prompt()` call:
the accumulating `response` buffer, the completion signal (`outcome`, `none`
while pending), and whether the data/error listeners are still attached to
the stdout stream. A fresh exchange starts with an empty buffer and both
listeners attached (bot.ts lines 226, 295-296). -/
structure Exchange where
  response : String
  outcome : Option (Except PromptError String)
  dataAttached : Bool
  errorAttached : Bool
deriving DecidableEq, Repr

/-- The exchange state right after `prompt()` attaches its listeners. -/
def Exchange.start : Exchange :=
  { response := "", outcome := none, dataAttached := true,
    errorAttached := true }

/-- `onStdoutData` (bot.ts lines 234-252), fired only while the data listener
is attached. If the chunk contains the sentinel `>`, the call removes both
listeners and resolves with `terminateAndResolve` applied to the buffer *as
it stands before this chunk is appended* (`terminateAndResolve(response)` is
executed before `response += text`); the append `response += text` still runs
afterwards in either branch, which is mirrored here. (The `timeoutId`
bookkeeping in the source is dead: the `setTimeout` arm is commented out.) -/
def onStdoutData (ex : Exchange) (text : String) : Exchange :=
  if ex.dataAttached then
    if jsIncludesChar text '>' then
      { response := ex.response ++ text
        outcome := some (Except.ok (terminateAndResolve ex.response))
        dataAttached := false
        errorAttached := false }
    else
      { ex with response := ex.response ++ text }
  else ex

/-- `onStdoutError` (bot.ts lines 261-269), fired only while the error
listener is attached: removes both listeners and rejects the call with the
underlying stream error (spec taxonomy: `StreamError`). -/
def onStdoutError (ex : Exchange) (e : String) : Exchange :=
  if ex.errorAttached then
    { ex with
      outcome := some (Except.error (PromptError.streamError e))
      dataAttached := false
      errorAttached := false }
  else ex

/-- Delivery of one stdout stream event to one exchange's listeners. -/
def exchangeStep (ex : Exchange) : StreamEvent → Exchange
  | .data c => onStdoutData ex c
  | .error e => onStdoutError ex e

/-- Delivery of a sequence of stdout stream events to one exchange. -/
def exchangeRun (ex : Exchange) (evs : List StreamEvent) : Exchange :=
  evs.foldl exchangeStep ex

/-- Concurrent in-flight exchanges attached to the same stdout stream: Node
delivers each emitted event to every listener attached at emit time, in
attach order, so each event is dispatched to every exchange. -/
def concurrentStep (exs : List Exchange) (ev : StreamEvent) : List Exchange :=
  exs.map (fun ex => exchangeStep ex ev)

/-- Delivery of a sequence of stdout events to several concurrently attached
exchanges. -/
def concurrentRun (exs : List Exchange) (evs : List StreamEvent) :
    List Exchange :=
  evs.foldl concurrentStep exs

/-- The live child-process reference held in `this.bot` after `spawn(...)`
with `stdio: [pipe, pipe, ignore]`: a process id and the two piped streams
(`stdinOpen`/`stdoutOpen` record whether the corresponding stream object is
present and open). -/
structure ProcessHandle where
  pid : Nat
  stdinOpen : Bool
  stdoutOpen : Bool
deriving DecidableEq, Repr

/-- An observable supervisor action: `spawn pid program argv` for a
`spawn(spawnArgs[0], spawnArgs.slice(1), ...)` call, `kill pid` for a
`this.bot.kill()` call. -/
inductive SupEvent where
  | spawn (pid : Nat) (program : String) (argv : List String)
  | kill (pid : Nat)
deriving DecidableEq, Repr

/-- Supervisor state: the nullable handle `this.bot`, a counter supplying
fresh process ids, and the ordered trace of spawn/kill events performed so
far. -/
structure SupState where
  bot : Option ProcessHandle
  nextPid : Nat
  events : List SupEvent
deriving DecidableEq, Repr

/-- The supervisor state before any `open()`/`close()` call. -/
def SupState.start : SupState := { bot := none, nextPid := 0, events := [] }

/-- `close()` (bot.ts lines 105-111): if `this.bot?.stdout` is present, kill
the process and clear the handle; otherwise do nothing (no error). -/
def closeBot (s : SupState) : SupState :=
  match s.bot with
  | some h =>
    if h.stdoutOpen then
      { s with bot := none, events := s.events ++ [SupEvent.kill h.pid] }
    else s
  | none => s

/-- The `spawnArgs` vector as the source builds it (bot.ts lines 81-85):
start from `[executablePath, "--model", modelPath]` and push
`"--" + key, value.toString()` for each `decoderConfig` entry in order. -/
def spawnArgsCode (b : BotConfig) : List String :=
  b.decoderConfig.foldl
    (fun acc kv => acc ++ ["--" ++ kv.1, kv.2.toStr])
    [b.executablePath, "--model", b.modelPath]

/-- The argument vector as the spec describes it (§4.2, §6): the executable
path, then `--model` and the model path, then for every DecoderConfig entry
a flag named `--` plus the key followed by the stringified value, and
nothing else. -/
def specArgVector (b : BotConfig) : List String :=
  [b.executablePath, "--model", b.modelPath] ++
    b.decoderConfig.flatMap (fun kv => ["--" ++ kv.1, kv.2.toStr])

/-- `open()`'s handle bookkeeping (bot.ts lines 76-89): if a handle exists,
`close()` it first; then spawn `spawnArgs[0]` with arguments
`spawnArgs.slice(1)` and store the fresh handle with both pipes open. (The
subsequent wait for the readiness sentinel blocks the caller but does not
change the handle state, so it is not part of this transition.) -/
def openBot (b : BotConfig) (s : SupState) : SupState :=
  let s1 := if s.bot.isSome then closeBot s else s
  let args := spawnArgsCode b
  { bot := some { pid := s1.nextPid, stdinOpen := true, stdoutOpen := true }
    nextPid := s1.nextPid + 1
    events := s1.events ++ [SupEvent.spawn s1.nextPid (args.headD "") (args.drop 1)] }

/-- The process ids spawned by a trace and not (yet) killed afterwards. -/
def livePids (events : List SupEvent) : List Nat :=
  events.foldl
    (fun acc e =>
      match e with
      | SupEvent.spawn p _ _ => acc ++ [p]
      | SupEvent.kill p => acc.filter (fun q => q ≠ p))
    []

/-- Outcome of the synchronous prefix of `prompt()` (bot.ts lines 218-223):
what the caller observes (`result`, with the source's thrown
`Bot is not initialized.` mapped to the taxonomy's `notRunning`) and the
writes performed on the child's stdin. -/
structure PromptStart where
  result : Except PromptError Unit
  stdinWrites : List String
deriving DecidableEq, Repr

/-- The synchronous prefix of `prompt(prompt)` (bot.ts lines 218-223): if
`this.bot?.stdin` or `this.bot?.stdout` is missing, throw before touching
any stream; otherwise write `prompt.trim() + "\n"` to stdin in one write.
The supervisor state is returned unchanged: `prompt` never spawns or kills
a process. -/
def promptStart (s : SupState) (prompt : String) : SupState × PromptStart :=
  match s.bot with
  | none => (s, { result := Except.error PromptError.notRunning, stdinWrites := [] })
  | some h =>
    if h.stdinOpen && h.stdoutOpen then
      (s, { result := Except.ok (), stdinWrites := [jsTrim prompt ++ "\n"] })
    else
      (s, { result := Except.error PromptError.notRunning, stdinWrites := [] })

/-- Host platform as `os.platform()` (plus the `uname -m` arm check on
darwin) distinguishes it in `downloadExecutable`. -/
inductive Platform where
  | darwin (arm : Bool)
  | linux
  | win32
  | other (name : String)
deriving DecidableEq, Repr

/-- Upstream executable URL selection (bot.ts lines 118-141): keyed by
platform and, on darwin, by CPU architecture; an unrecognized platform
throws (`UnsupportedPlatform` in the spec's taxonomy). -/
def upstreamFor : Platform → Except String String
  | .darwin true =>
    Except.ok "https://github.com/nomic-ai/gpt4all/blob/main/chat/gpt4all-lora-quantized-OSX-m1?raw=true"
  | .darwin false =>
    Except.ok "https://github.com/nomic-ai/gpt4all/blob/main/chat/gpt4all-lora-quantized-OSX-intel?raw=true"
  | .linux =>
    Except.ok "https://github.com/nomic-ai/gpt4all/blob/main/chat/gpt4all-lora-quantized-linux-x86?raw=true"
  | .win32 =>
    Except.ok "https://github.com/nomic-ai/gpt4all/blob/main/chat/gpt4all-lora-quantized-win64.exe?raw=true"
  | .other name =>
    Except.error ("Your platform is not supported: " ++ name ++ ".")

/-- Result of an asynchronous fs operation, as seen by its Node callback. -/
inductive CallbackResult where
  | ok
  | failed (e : String)
deriving DecidableEq, Repr

/-- Semantics of `await fs.chmod(path, mode, (err) => { if (err) throw err })`
(bot.ts lines 145-149): `fs.chmod` is the callback-style API, so the call
expression evaluates to `undefined` and the `await` completes successfully at
once; the callback runs later, detached from the enclosing promise chain, and
an error thrown inside it becomes an uncaught exception — it never rejects the
enclosing async function. Returns (what the awaiting caller observes, the
uncaught error if any). -/
def awaitCallbackChmod (r : CallbackResult) : Except String Unit × Option String :=
  (Except.ok (),
   match r with
   | CallbackResult.ok => none
   | CallbackResult.failed e => some e)

/-- Outcome of one `downloadExecutable()` call: the settlement of the promise
the caller awaits, the errors raised outside the promise chain (uncaught),
and the chmod calls issued (path, mode). -/
structure ProvisionOutcome where
  result : Except String Unit
  uncaughtErrors : List String
  chmodCalls : List (String × Nat)
deriving DecidableEq, Repr

/-- `downloadExecutable()` (bot.ts lines 117-152): pick the upstream URL by
platform (throwing on an unsupported one), await the download
(`downloadOutcome` is how that awaited promise settles), then
`await fs.chmod(this.executablePath, 0o755, cb)` with `cb` rethrowing its
error — per `awaitCallbackChmod`, the function's own promise then resolves
regardless of how chmod fared. -/
def downloadExecutable (b : BotConfig) (platform : Platform)
    (downloadOutcome : Except String Unit) (chmodOutcome : CallbackResult) :
    ProvisionOutcome :=
  match upstreamFor platform with
  | Except.error e =>
    { result := Except.error e, uncaughtErrors := [], chmodCalls := [] }
  | Except.ok _ =>
    match downloadOutcome with
    | Except.error e =>
      { result := Except.error e, uncaughtErrors := [], chmodCalls := [] }
    | Except.ok _ =>
      let (res, uncaught) := awaitCallbackChmod chmodOutcome
      { result := res
        uncaughtErrors := uncaught.toList
        chmodCalls := [(b.executablePath, 0o755)] }

/-- A download task `init()` may start (bot.ts lines 58-71). -/
inductive DownloadTask where
  | execTask
  | modelTask
deriving DecidableEq, Repr

/-- `init()` (bot.ts lines 58-71): check existence of the executable path and
the model path independently; each missing artifact pushes its own download
promise; the resulting batch is awaited with `Promise.all`, so all tasks in
the returned list run concurrently. Both present means an empty batch: no
network call and no write. -/
def botInit (b : BotConfig) (fileExists : String → Bool) : List DownloadTask :=
  (if fileExists b.executablePath then [] else [DownloadTask.execTask]) ++
    (if fileExists b.modelPath then [] else [DownloadTask.modelTask])

/-- JavaScript `s.substring(start)` (one-argument form): the characters from
position `min start s.length` to the end of the string. -/
def jsSubstring (s : String) (start : Nat) : String :=
  String.mk (s.data.drop (min start s.length))

/-- An HTTP response as the controller sends it: status code and the
`message` field of the JSON body. -/
structure HttpResponse where
  status : Nat
  message : String
deriving DecidableEq, Repr

/-- The `promptBot` controller (bot.controller.ts): reject a missing or empty
(falsy) `prompt` body field with 400; on a successful `bot.prompt` call
answer 200 with `message = response.substring(13)`; on a rejected call answer
500 with a generic message. `botOutcome` is how the awaited `bot.prompt(p)`
promise settles. -/
def promptBot (prompt : Option String)
    (botOutcome : Except PromptError String) : HttpResponse :=
  match prompt with
  | none => { status := 400, message := "Prompt is required." }
  | some p =>
    if p = "" then { status := 400, message := "Prompt is required." }
    else
      match botOutcome with
      | Except.ok response =>
        { status := 200, message := jsSubstring response 13 }
      | Except.error _ =>
        { status := 500, message := "Error prompting bot." }

/-- The configuration `new Bot()` produces with the default model name and an
empty decoder config (as the controller constructs it). -/
def defaultBot : BotConfig :=
  { model := "gpt4all-lora-quantized"
    decoderConfig := []
    executablePath := "./executables/builtBot"
    modelPath := "./models/gpt4all-lora-quantized.bin" }

/-! ## Helper lemmas -/

theorem exchangeStep_of_detached (ex : Exchange) (ev : StreamEvent)
    (h1 : ex.dataAttached = false) (h2 : ex.errorAttached = false) :
    exchangeStep ex ev = ex := by
  cases ev <;> simp [exchangeStep, onStdoutData, onStdoutError, h1, h2]

theorem exchangeRun_of_detached (ex : Exchange) (evs : List StreamEvent)
    (h1 : ex.dataAttached = false) (h2 : ex.errorAttached = false) :
    exchangeRun ex evs = ex := by
  induction evs with
  | nil => rfl
  | cons e t ih =>
    rw [exchangeRun, List.foldl_cons, exchangeStep_of_detached ex e h1 h2]
    exact ih

theorem foldl_append_flatMap {α β : Type} (f : α → List β) (l : List α)
    (acc0 : List β) :
    l.foldl (fun acc a => acc ++ f a) acc0 = acc0 ++ l.flatMap f := by
  induction l generalizing acc0 with
  | nil => simp
  | cons a t ih => simp [List.foldl_cons, ih, List.append_assoc]

/-! ## Claims -/

/-- C1: the claim says every received chunk is appended to the buffer and
the call resolves with the buffer contents (sentinel stripped, trimmed), so
`prompt("hello")` against a child whose single output chunk is `"world>"`
should resolve to `"world"`. Evaluating the embedded listener machine on
that input shows the call resolves with `""` instead: `terminateAndResolve`
is invoked on the buffer *before* the sentinel chunk is appended, so the
chunk's text never reaches the resolved value. -/
theorem prompt_single_chunk_sentinel_resolves_empty :
    (exchangeRun Exchange.start [StreamEvent.data "world>"]).outcome =
      some (Except.ok "")
    ∧ (exchangeRun Exchange.start [StreamEvent.data "world>"]).outcome ≠
        some (Except.ok "world") := by
  refine ⟨by decide, by decide⟩

/-- C2: the claim says concurrent `prompt()` calls are serialized by the core
so each resolves with only its own response text. The embedding shows the
opposite: both calls attach listeners to the same stdout stream and every
chunk is delivered to both, so with the child writing the two answers
`"first answer"` `">"` `"second answer"` `">"` in order, *both* calls resolve
at the first sentinel with `"first answer"`; the second caller never sees its
own answer. -/
theorem concurrent_prompts_share_first_answer :
    (concurrentRun [Exchange.start, Exchange.start]
        [StreamEvent.data "first answer", StreamEvent.data ">",
         StreamEvent.data "second answer", StreamEvent.data ">"]).map
        Exchange.outcome =
      [some (Except.ok "first answer"), some (Except.ok "first answer")]
    ∧ ("first answer" : String) ≠ "second answer" := by
  refine ⟨by decide, by decide⟩

/-- C3: starting from a supervisor with no handle, `open()` twice in
succession leaves exactly one live process handle (the trace shows spawn 0,
kill 0, spawn 1: the first process is terminated before the second is
spawned, and only pid 1 is live); `close()` with no handle is a no-op, not
an error, and a subsequent `open()` still succeeds. -/
theorem open_twice_single_live_handle (b : BotConfig) :
    (openBot b (openBot b SupState.start)).events =
      [SupEvent.spawn 0 ((spawnArgsCode b).headD "") ((spawnArgsCode b).drop 1),
       SupEvent.kill 0,
       SupEvent.spawn 1 ((spawnArgsCode b).headD "") ((spawnArgsCode b).drop 1)]
    ∧ livePids (openBot b (openBot b SupState.start)).events = [1]
    ∧ (openBot b (openBot b SupState.start)).bot =
        some { pid := 1, stdinOpen := true, stdoutOpen := true }
    ∧ closeBot SupState.start = SupState.start
    ∧ (openBot b (closeBot SupState.start)).bot.isSome = true := by
  refine ⟨?_, ?_, ?_, ?_, ?_⟩ <;>
    simp [openBot, closeBot, SupState.start, livePids]

/-- C4: `prompt()` fails with `NotRunning` exactly when the handle is null or
one of its stdin/stdout streams is missing; in the failure case nothing is
written to any stream, and the supervisor state (hence its spawn trace) is
untouched, so no process is spawned. Under the precondition that the handle
and both streams are present the failure branch is unreachable. -/
theorem prompt_not_running_guard (s : SupState) (p : String) :
    ((promptStart s p).2.result = Except.error PromptError.notRunning ↔
      (s.bot = none ∨
        ∃ h, s.bot = some h ∧ (h.stdinOpen = false ∨ h.stdoutOpen = false)))
    ∧ ((promptStart s p).2.result = Except.error PromptError.notRunning →
        (promptStart s p).2.stdinWrites = [])
    ∧ (promptStart s p).1 = s := by
  rcases s with ⟨bot, n, evs⟩
  cases bot with
  | none => simp [promptStart]
  | some h =>
    rcases h with ⟨pid, si, so⟩
    cases si <;> cases so <;> simp [promptStart]

/-- Witness for C4 at a concrete closed state: before any `open()`, `prompt`
fails with `NotRunning`. -/
theorem prompt_not_running_guard_witness :
    (promptStart SupState.start "hello").2.result =
      Except.error PromptError.notRunning :=
  (prompt_not_running_guard SupState.start "hello").1.mpr (Or.inl rfl)

/-- C5: a stream-level error delivered to an in-flight exchange (error
listener attached) rejects that call with the underlying stream error in the
`StreamError` category and detaches both the data and the error listener;
whatever stream events follow, the detached exchange never changes again, so
no leaked listener from the failed call can fire on a later exchange. -/
theorem stream_error_rejects_and_detaches (ex : Exchange) (e : String)
    (evs : List StreamEvent) (h : ex.errorAttached = true) :
    (exchangeRun ex (StreamEvent.error e :: evs)).outcome =
      some (Except.error (PromptError.streamError e))
    ∧ (exchangeRun ex (StreamEvent.error e :: evs)).dataAttached = false
    ∧ (exchangeRun ex (StreamEvent.error e :: evs)).errorAttached = false := by
  have hstep : exchangeStep ex (StreamEvent.error e) =
      { ex with
        outcome := some (Except.error (PromptError.streamError e))
        dataAttached := false
        errorAttached := false } := by
    simp [exchangeStep, onStdoutError, h]
  have hrun : exchangeRun ex (StreamEvent.error e :: evs) =
      exchangeRun (exchangeStep ex (StreamEvent.error e)) evs := by
    rw [exchangeRun, List.foldl_cons]; rfl
  rw [hrun, hstep, exchangeRun_of_detached _ _ rfl rfl]
  exact ⟨rfl, rfl, rfl⟩

/-- Witness for C5: a fresh exchange hit by a stream error is rejected with
that error and ignores a later data chunk. -/
theorem stream_error_rejects_and_detaches_witness :
    (exchangeRun Exchange.start
        [StreamEvent.error "boom", StreamEvent.data "late>"]).outcome =
      some (Except.error (PromptError.streamError "boom")) :=
  (stream_error_rejects_and_detaches Exchange.start "boom"
    [StreamEvent.data "late>"] rfl).1

/-- C6: the claim says a chmod failure after the executable download is fatal
to the provisioning call. Evaluating the embedded `downloadExecutable` with a
failing chmod shows the call still resolves successfully — the error escapes
as an uncaught exception outside the promise chain (because `fs.chmod` is the
callback-style API and the `await` completes immediately) — while the chmod
call itself does request mode `0o755` on the downloaded executable. -/
theorem chmod_failure_not_fatal_to_provisioning :
    (downloadExecutable defaultBot Platform.linux (Except.ok ())
        (CallbackResult.failed "EPERM")).result = Except.ok ()
    ∧ (downloadExecutable defaultBot Platform.linux (Except.ok ())
        (CallbackResult.failed "EPERM")).uncaughtErrors = ["EPERM"]
    ∧ (downloadExecutable defaultBot Platform.linux (Except.ok ())
        CallbackResult.ok).chmodCalls = [("./executables/builtBot", 0o755)] := by
  refine ⟨rfl, rfl, rfl⟩

/-- C7: `init()` is idempotent and its two downloads are independent: when
both artifact files exist the started batch is empty (no network call, no
write); a missing executable alone starts the executable download; a missing
model file alone starts the model download; and when both are missing both
tasks are in the one batch awaited together (so they run concurrently). -/
theorem init_idempotent_and_independent (b : BotConfig)
    (fe : String → Bool) :
    (fe b.executablePath = true → fe b.modelPath = true → botInit b fe = [])
    ∧ (fe b.executablePath = false →
        DownloadTask.execTask ∈ botInit b fe)
    ∧ (fe b.modelPath = false →
        DownloadTask.modelTask ∈ botInit b fe)
    ∧ (fe b.executablePath = false → fe b.modelPath = false →
        botInit b fe = [DownloadTask.execTask, DownloadTask.modelTask]) := by
  refine ⟨fun h1 h2 => ?_, fun h1 => ?_, fun h1 => ?_, fun h1 h2 => ?_⟩
  · simp [botInit, h1, h2]
  · cases h2 : fe b.modelPath <;> simp [botInit, h1, h2]
  · cases h2 : fe b.executablePath <;> simp [botInit, h1, h2]
  · simp [botInit, h1, h2]

/-- Witness for C7: with both files present, the default bot's `init` starts
nothing. -/
theorem init_idempotent_and_independent_witness :
    botInit defaultBot (fun _ => true) = [] :=
  (init_idempotent_and_independent defaultBot (fun _ => true)).1 rfl rfl

/-- C8: the argument vector built by `open()` equals the spec's shape — the
executable path, `--model`, the model path, then for each DecoderConfig
entry in order a `--key` flag followed by the stringified value, and nothing
else — and the recorded spawn call uses exactly that program and argv. -/
theorem spawn_arg_vector_matches_spec (b : BotConfig) (s : SupState) :
    spawnArgsCode b = specArgVector b
    ∧ (spawnArgsCode b).headD "" = b.executablePath
    ∧ (spawnArgsCode b).drop 1 =
        ["--model", b.modelPath] ++
          b.decoderConfig.flatMap (fun kv => ["--" ++ kv.1, kv.2.toStr])
    ∧ (openBot b s).events =
        (if s.bot.isSome then closeBot s else s).events ++
          [SupEvent.spawn (if s.bot.isSome then closeBot s else s).nextPid
            b.executablePath
            (["--model", b.modelPath] ++
              b.decoderConfig.flatMap (fun kv => ["--" ++ kv.1, kv.2.toStr]))] := by
  have hmain : spawnArgsCode b = specArgVector b :=
    foldl_append_flatMap _ _ _
  have hhead : (spawnArgsCode b).headD "" = b.executablePath := by
    rw [hmain]; rfl
  have hdrop : (spawnArgsCode b).drop 1 =
      ["--model", b.modelPath] ++
        b.decoderConfig.flatMap (fun kv => ["--" ++ kv.1, kv.2.toStr]) := by
    rw [hmain]; rfl
  refine ⟨hmain, hhead, hdrop, ?_⟩
  simp only [openBot, hhead, hdrop]

/-- C9: `Bot` construction succeeds exactly for the two supported model
names, and for a supported name it resolves the paths deterministically:
the fixed executable path and `./models/<name>.bin` for the weights. -/
theorem constructor_supported_models_and_paths (m : String)
    (c : List (String × ConfigValue)) :
    ((∃ b, mkBot m c = Except.ok b) ↔
      (m = "gpt4all-lora-quantized" ∨
        m = "gpt4all-lora-unfiltered-quantized"))
    ∧ (∀ b, mkBot m c = Except.ok b →
        b.model = m ∧ b.decoderConfig = c ∧
        b.executablePath = "./executables/builtBot" ∧
        b.modelPath = "./models/" ++ m ++ ".bin") := by
  by_cases hm : m = "gpt4all-lora-quantized" ∨
      m = "gpt4all-lora-unfiltered-quantized"
  · have hcond : ¬("gpt4all-lora-quantized" ≠ m ∧
        "gpt4all-lora-unfiltered-quantized" ≠ m) := by
      rcases hm with h | h <;> simp [h]
    constructor
    · exact ⟨fun _ => hm, fun _ => ⟨_, by rw [mkBot, if_neg hcond]⟩⟩
    · intro b hb
      rw [mkBot, if_neg hcond] at hb
      simp only [Except.ok.injEq] at hb
      subst hb
      exact ⟨rfl, rfl, rfl, rfl⟩
  · have hcond : "gpt4all-lora-quantized" ≠ m ∧
        "gpt4all-lora-unfiltered-quantized" ≠ m := by
      push_neg at hm
      exact ⟨fun h => hm.1 h.symm, fun h => hm.2 h.symm⟩
    constructor
    · constructor
      · rintro ⟨b, hb⟩
        rw [mkBot, if_pos hcond] at hb
        exact absurd hb (by simp)
      · exact fun h => absurd h hm
    · intro b hb
      rw [mkBot, if_pos hcond] at hb
      exact absurd hb (by simp)

/-- Witness for C9: the default model name constructs successfully and its
resolved model path follows the name. -/
theorem constructor_supported_models_and_paths_witness :
    defaultBot.modelPath = "./models/" ++ "gpt4all-lora-quantized" ++ ".bin"
    ∧ ∃ b, mkBot "gpt4all-lora-quantized" [] = Except.ok b :=
  ⟨((constructor_supported_models_and_paths "gpt4all-lora-quantized" []).2
      defaultBot (by decide)).2.2.2,
   (constructor_supported_models_and_paths "gpt4all-lora-quantized" []).1.mpr
     (Or.inl rfl)⟩

/-- C10: on a successful prompt round-trip the HTTP 200 body's `message`
field is the core's response with its first 13 characters removed
(`response.substring(13)`); in particular any core response of 13 characters
or fewer reaches the HTTP client as the empty string. -/
theorem prompt_route_strips_first_13_chars (p response : String)
    (hp : p ≠ "") :
    (promptBot (some p) (Except.ok response)).status = 200
    ∧ (promptBot (some p) (Except.ok response)).message =
        String.mk (response.data.drop 13)
    ∧ (response.length ≤ 13 →
        (promptBot (some p) (Except.ok response)).message = "") := by
  have hres : promptBot (some p) (Except.ok response) =
      { status := 200, message := jsSubstring response 13 } := by
    simp [promptBot, hp]
  have hmsg : jsSubstring response 13 = String.mk (response.data.drop 13) := by
    unfold jsSubstring
    rcases le_or_lt response.length 13 with h | h
    · have hlen : response.data.length = response.length := rfl
      rw [List.drop_eq_nil_of_le (by rw [hlen]; exact le_min h le_rfl),
        List.drop_eq_nil_of_le (by rw [hlen]; exact h)]
    · rw [min_eq_left h.le]
  refine ⟨by rw [hres], by rw [hres]; exact hmsg, fun hle => ?_⟩
  rw [hres]
  show jsSubstring response 13 = ""
  rw [hmsg, List.drop_eq_nil_of_le (by exact hle)]

/-- Witness for C10: a two-word 11-character response is delivered as the
empty string with status 200. -/
theorem prompt_route_strips_first_13_chars_witness :
    (promptBot (some "hi") (Except.ok "short reply")).status = 200
    ∧ (promptBot (some "hi") (Except.ok "short reply")).message =
        String.mk ("short reply".data.drop 13)
    ∧ ("short reply".length ≤ 13 →
        (promptBot (some "hi") (Except.ok "short reply")).message = "") :=
  prompt_route_strips_first_13_chars "hi" "short reply" (by decide)

end AIModelMate
